import Mathlib

/-!
Verification of the alert-notification web client against its specification.

The repository contains several client variants:
* `src/unnamed/part_000` — a long-polling client with an `isPolling` start/stop
  guard (`startLongPolling` / `stopLongPolling` / `longPollCycle`), modelled in
  namespace `Part000` as a small-step event machine;
* `src/static/js/scriptlong.js` (second, "enhanced" variant) — a long-polling
  client with a persistent client identity (`initializeClientId`) and an
  exponential-backoff retry path (`getRetryCount` / `resetRetryCount`),
  modelled in namespace `ScriptLong`;
* `src/unnamed/part_001` — a WebSocket client with per-id deduplication
  (`receivedAlertIds`) and bounded reconnection, modelled in namespace
  `Part001`;
* `src/static/js/scriptpush.js` (first part) — the push-notification variant
  whose `displayAlert` escapes alert content through `escapeHtml`, modelled in
  namespace `ScriptPush`.

Effects are made explicit: `setTimeout`/`fetch`/WebSocket callbacks become
events consumed by step functions over explicit state records; `localStorage`
becomes an explicit store value plus outcome fields (`Except` captures a
throwing store); `Date.now()` / `Math.random()` / the canvas fingerprint
become environment inputs.
-/

namespace ScriptLong

/-- Backoff delay of `scriptlong.js` line 154:
`Math.min(5000, 1000 * Math.pow(2, n))` where `n` is the value returned by
`getRetryCount()`. -/
def retryDelay (attempt : Nat) : Nat :=
  min 5000 (1000 * 2 ^ attempt)

/-- `scriptlong.js` line 354: `function getRetryCount() { return retryCount++; }` —
returns the current counter and post-increments it.  The pair is
(returned value, new counter). -/
def getRetryCount (retryCount : Nat) : Nat × Nat :=
  (retryCount, retryCount + 1)

/-- `scriptlong.js` line 355: `function resetRetryCount() { retryCount = 0; }` -/
def resetRetryCount (_retryCount : Nat) : Nat :=
  0

/-- The catch handler of `longPollForAlerts` (lines 149-159): computes
`retryDelay = Math.min(5000, 1000 * Math.pow(2, getRetryCount()))`.
Returns (computed delay, counter after the post-increment). -/
def catchRetryDelay (retryCount : Nat) : Nat × Nat :=
  let r := getRetryCount retryCount
  (retryDelay r.1, r.2)

/-- The `setTimeout` callback scheduled by the catch handler (lines 155-158)
runs `resetRetryCount()` and then `longPollForAlerts(serverUrl)` — so the
counter is reset to 0 by the retry itself, before the next request is made. -/
def retryTimerFire (retryCount : Nat) : Nat :=
  resetRetryCount retryCount

/-- Delays produced by `k` consecutive fetch rejections, starting from counter
value `c`: each failure runs the catch handler, then its retry timer fires
(resetting the counter) and the next attempt fails again. -/
def consecutiveFailureDelays : Nat → Nat → List Nat
  | 0, _ => []
  | Nat.succ k, c =>
    let r := catchRetryDelay c
    r.1 :: consecutiveFailureDelays k (retryTimerFire r.2)

/-- State of the `scriptlong.js` polling loop as far as concurrent requests are
concerned: the number of long-poll fetches currently in flight. -/
structure LoopState where
  inFlight : Nat
deriving DecidableEq, Repr

/-- `longPollForAlerts(serverUrl)` (lines 111-159) unconditionally issues one
`fetch` of the poll URL; there is no `isPolling`-style guard anywhere in this
variant. -/
def longPollForAlerts (s : LoopState) : LoopState :=
  { s with inFlight := s.inFlight + 1 }

/-- `window.startLongPolling` (lines 570-574): resolves the URL and calls
`longPollForAlerts(serverUrl)` directly — no check that a loop is already
running. -/
def startLongPolling (s : LoopState) : LoopState :=
  longPollForAlerts s

/-- Outcome of one `localStorage` operation: `Except.error` is a thrown
exception (storage unavailable), `Except.ok` the normal result. -/
structure LsEnv where
  getResult : Except String (Option String)
  setResult : Except String Unit
  timestamp : String
  randomPart : String
  fingerprint : String

/-- Client id synthesis of `initializeClientId` (line 62):
`client_${timestamp}_${randomPart}_${browserFingerprint}`. -/
def mkClientId (t r f : String) : String :=
  "client_" ++ t ++ "_" ++ r ++ "_" ++ f

/-- `initializeClientId` (`scriptlong.js` lines 52-73): reads
`localStorage.getItem('longpoll_client_id')`; if absent, builds a fresh id from
timestamp, random part and fingerprint and stores it with
`localStorage.setItem`.  There is no `try`/`catch`, so a throwing `getItem` or
`setItem` propagates out of the function (`Except.error`).  The result pairs
the returned id with the storage content after the call. -/
def initializeClientId (e : LsEnv) : Except String (String × Option String) :=
  match e.getResult with
  | Except.error err => Except.error err
  | Except.ok (some stored) => Except.ok (stored, some stored)
  | Except.ok none =>
    let id := mkClientId e.timestamp e.randomPart e.fingerprint
    match e.setResult with
    | Except.error err => Except.error err
    | Except.ok _ => Except.ok (id, some id)

/-- Environment in which `localStorage` works normally: `getItem` returns the
current store content, `setItem` succeeds. -/
def okEnv (store : Option String) (t r f : String) : LsEnv :=
  ⟨Except.ok store, Except.ok (), t, r, f⟩

end ScriptLong

namespace Part000

/-- Body of a successful long-poll response in `part_000`: exactly one of
`data.alert`, `data.timeout`, `data.error`, or an unexpected shape. -/
inductive PollResult where
  | alert (id : String)
  | timeout
  | serverError (msg : String)
  | unexpected
deriving DecidableEq, Repr

/-- External events driving the `part_000` client: the page (or tests) calling
`startLongPolling(url)` / `stopLongPolling()`, the in-flight `fetch`
resolving with a body or rejecting, and a scheduled `setTimeout(longPollCycle)`
callback firing. -/
inductive PollEv where
  | start (url : Option String)
  | stop
  | resolve (r : PollResult)
  | reject
  | fire
deriving DecidableEq, Repr

/-- Observable state of the `part_000` client: the module-level `serverUrl` and
`isPolling` variables, the number of fetches currently in flight, the number of
scheduled `longPollCycle` timers, the total number of fetches issued, and the
ids passed to `displayAlert` in order. -/
structure PollState where
  serverUrl : String
  isPolling : Bool
  inFlight : Nat
  timers : Nat
  fetches : Nat
  displayed : List String
deriving DecidableEq, Repr

/-- Module initialisation of `part_000` (lines 4-8): polling off, nothing
pending. -/
def initState : PollState :=
  ⟨"http://127.0.0.1:8001/api/poll/alerts/", false, 0, 0, 0, []⟩

/-- `longPollCycle` entry (lines 36-57): returns immediately when
`!isPolling`; otherwise issues one `fetch` of the poll URL. -/
def longPollCycle (s : PollState) : PollState :=
  if s.isPolling then
    { s with inFlight := s.inFlight + 1, fetches := s.fetches + 1 }
  else s

/-- The `if (url) serverUrl = url;` preamble of `startLongPolling`. -/
def setUrl (url : Option String) (s : PollState) : PollState :=
  match url with
  | some u => { s with serverUrl := u }
  | none => s

/-- `startLongPolling(url)` (lines 12-28): stores the url if given, returns if
already polling, otherwise sets `isPolling = true` and starts a cycle. -/
def startLongPolling (url : Option String) (s : PollState) : PollState :=
  let s1 := setUrl url s
  if s1.isPolling then s1
  else longPollCycle { s1 with isPolling := true }

/-- `stopLongPolling()` (lines 30-34): clears `isPolling`. -/
def stopLongPolling (s : PollState) : PollState :=
  { s with isPolling := false }

/-- The fulfilled-response handler (lines 67-103): whatever `isPolling` is,
an `alert` body is displayed via `displayAlert(data.alert)` and every branch
schedules another `longPollCycle` with `setTimeout`. -/
def resolveResponse (s : PollState) (r : PollResult) : PollState :=
  if s.inFlight = 0 then s
  else
    let s1 := { s with inFlight := s.inFlight - 1 }
    match r with
    | PollResult.alert id =>
      { s1 with displayed := s1.displayed ++ [id], timers := s1.timers + 1 }
    | PollResult.timeout => { s1 with timers := s1.timers + 1 }
    | PollResult.serverError _ => { s1 with timers := s1.timers + 1 }
    | PollResult.unexpected => { s1 with timers := s1.timers + 1 }

/-- The catch handler (lines 105-123): schedules a retry cycle only
`if (isPolling)`. -/
def rejectResponse (s : PollState) : PollState :=
  if s.inFlight = 0 then s
  else
    let s1 := { s with inFlight := s.inFlight - 1 }
    if s1.isPolling then { s1 with timers := s1.timers + 1 } else s1

/-- A scheduled `setTimeout(() => longPollCycle(), _)` callback firing. -/
def fireTimer (s : PollState) : PollState :=
  if s.timers = 0 then s
  else longPollCycle { s with timers := s.timers - 1 }

/-- One event of the `part_000` client. -/
def pollStep (s : PollState) : PollEv → PollState
  | PollEv.start url => startLongPolling url s
  | PollEv.stop => stopLongPolling s
  | PollEv.resolve r => resolveResponse s r
  | PollEv.reject => rejectResponse s
  | PollEv.fire => fireTimer s

/-- The `part_000` client run from page load over a sequence of events. -/
def pollRun (evs : List PollEv) : PollState :=
  evs.foldl pollStep initState

end Part000

/-- Helper: a non-`start` event keeps a stopped loop stopped and issues no
fetch (`longPollCycle` exits under its `!isPolling` guard). -/
theorem part000_stopped_step (s : Part000.PollState) (e : Part000.PollEv)
    (hs : s.isPolling = false) (he : ∀ u, e ≠ Part000.PollEv.start u) :
    (Part000.pollStep s e).isPolling = false ∧
    (Part000.pollStep s e).fetches = s.fetches := by
  cases e with
  | start u => exact absurd rfl (he u)
  | stop => exact ⟨rfl, rfl⟩
  | resolve r =>
    simp only [Part000.pollStep, Part000.resolveResponse]
    split
    · exact ⟨hs, rfl⟩
    · cases r <;> exact ⟨hs, rfl⟩
  | reject =>
    simp only [Part000.pollStep, Part000.rejectResponse]
    split
    · exact ⟨hs, rfl⟩
    · split <;> exact ⟨hs, rfl⟩
  | fire =>
    simp only [Part000.pollStep, Part000.fireTimer, Part000.longPollCycle]
    split
    · exact ⟨hs, rfl⟩
    · simp [hs]

/-- Helper: folding non-`start` events from a stopped state issues no fetch. -/
theorem part000_stopped_run (post : List Part000.PollEv) :
    ∀ (s : Part000.PollState), s.isPolling = false →
    (∀ e ∈ post, ∀ u, e ≠ Part000.PollEv.start u) →
    (post.foldl Part000.pollStep s).fetches = s.fetches ∧
    (post.foldl Part000.pollStep s).isPolling = false := by
  induction post with
  | nil => intro s hs _; exact ⟨rfl, hs⟩
  | cons e rest ih =>
    intro s hs hpost
    have he := hpost e (List.mem_cons_self e rest)
    have hstep := part000_stopped_step s e hs he
    have hrest := ih (Part000.pollStep s e) hstep.1
      (fun x hx => hpost x (List.mem_cons_of_mem e hx))
    exact ⟨hstep.2 ▸ hrest.1, hrest.2⟩

/-- C3 counterexample: the claim says that when `stop()` is called while an
acquire is pending and that acquire later resolves with an `Alert`, the sink
is NOT invoked.  On the concrete trace start; stop; the pending fetch resolves
with alert "a1", the `part_000` response handler displays "a1" anyway — the
success path has no `isPolling` guard.  (The trace issues exactly the one
initial fetch.) -/
theorem c3_counterexample :
    (Part000.pollRun [Part000.PollEv.start none, Part000.PollEv.stop,
      Part000.PollEv.resolve (Part000.PollResult.alert "a1")]).displayed = ["a1"] ∧
    (Part000.pollRun [Part000.PollEv.start none, Part000.PollEv.stop,
      Part000.PollEv.resolve (Part000.PollResult.alert "a1")]).fetches = 1 := by
  exact ⟨rfl, rfl⟩

/-- C3 (amended): after `stop()`, no further acquire is issued — every event
after the stop (fetch resolutions, rejections, timer firings, further stops)
leaves the total fetch count unchanged, as long as `start()` is not called
again — but a pending acquire that resolves with an `Alert` still invokes the
display operation, whatever the polling flag says. -/
theorem c3_stale_response :
    (∀ (pre post : List Part000.PollEv),
      (∀ e ∈ post, ∀ u, e ≠ Part000.PollEv.start u) →
      (Part000.pollRun (pre ++ Part000.PollEv.stop :: post)).fetches =
        (Part000.pollRun (pre ++ [Part000.PollEv.stop])).fetches) ∧
    (∀ (s : Part000.PollState) (id : String), s.inFlight ≠ 0 →
      (Part000.resolveResponse s (Part000.PollResult.alert id)).displayed =
        s.displayed ++ [id]) := by
  constructor
  · intro pre post hpost
    have hsplit : pre ++ Part000.PollEv.stop :: post =
        (pre ++ [Part000.PollEv.stop]) ++ post := by simp
    rw [hsplit]
    unfold Part000.pollRun
    rw [List.foldl_append]
    have hstopped : ((pre ++ [Part000.PollEv.stop]).foldl Part000.pollStep
        Part000.initState).isPolling = false := by
      rw [List.foldl_append]; rfl
    exact (part000_stopped_run post _ hstopped hpost).1
  · intro s id h
    simp only [Part000.resolveResponse]
    split
    · omega
    · rfl

/-- Witness for C3 (amended): concrete trace start; stop followed by the
pending alert resolving and the rescheduled cycle firing — the fetch count
stays at the value it had right after the stop, and a state with one pending
acquire displays the resolved alert. -/
theorem c3_stale_response_witness :
    (Part000.pollRun ([Part000.PollEv.start none] ++ Part000.PollEv.stop ::
      [Part000.PollEv.resolve (Part000.PollResult.alert "a1"), Part000.PollEv.fire])).fetches =
      (Part000.pollRun ([Part000.PollEv.start none] ++ [Part000.PollEv.stop])).fetches ∧
    (Part000.resolveResponse ⟨"u", false, 1, 0, 1, []⟩
      (Part000.PollResult.alert "a1")).displayed = [] ++ ["a1"] :=
  ⟨c3_stale_response.1 [Part000.PollEv.start none]
      [Part000.PollEv.resolve (Part000.PollResult.alert "a1"), Part000.PollEv.fire]
      (by intro e he u; fin_cases he <;> simp),
   c3_stale_response.2 ⟨"u", false, 1, 0, 1, []⟩ "a1" (by decide)⟩

/-- C1 counterexample: the claim says duplicate suppression holds in every
client variant that receives alerts.  The `part_000` long-polling client has
no dedup set: on the concrete trace where the server replays alert id "a1" on
two successive poll cycles, `displayAlert` is invoked twice for "a1", not
once. -/
theorem c1_counterexample :
    (Part000.pollRun [Part000.PollEv.start none,
      Part000.PollEv.resolve (Part000.PollResult.alert "a1"), Part000.PollEv.fire,
      Part000.PollEv.resolve (Part000.PollResult.alert "a1")]).displayed.count "a1" = 2 := by
  decide

/-- Helper: each `part_000` event preserves "at most one pending acquire or
scheduled cycle, and none when stopped", provided no `stop` occurs (stopping
with a request still in flight can leave an orphan in-flight request that a
quick restart would double — the claim only covers re-entrant starts while
`Running`). -/
theorem part000_single_flight_step (s : Part000.PollState) (e : Part000.PollEv)
    (he : e ≠ Part000.PollEv.stop)
    (h1 : s.inFlight + s.timers ≤ 1)
    (h2 : s.isPolling = false → s.inFlight + s.timers = 0) :
    (Part000.pollStep s e).inFlight + (Part000.pollStep s e).timers ≤ 1 ∧
    ((Part000.pollStep s e).isPolling = false →
      (Part000.pollStep s e).inFlight + (Part000.pollStep s e).timers = 0) := by
  obtain ⟨su, ip, inf, tm, fe, d⟩ := s
  cases ip with
  | true =>
    cases e with
    | start url =>
      cases url <;>
        simp only [Part000.pollStep, Part000.startLongPolling, Part000.setUrl,
          Part000.longPollCycle] <;> simp_all
    | stop => exact absurd rfl he
    | resolve r =>
      simp only [Part000.pollStep, Part000.resolveResponse]
      split
      · exact ⟨h1, by simp⟩
      · cases r <;> simp_all <;> omega
    | reject =>
      simp only [Part000.pollStep, Part000.rejectResponse]
      split
      · exact ⟨h1, by simp⟩
      · simp_all; omega
    | fire =>
      simp only [Part000.pollStep, Part000.fireTimer, Part000.longPollCycle]
      split
      · exact ⟨h1, by simp⟩
      · simp_all; omega
  | false =>
    have h0 : inf + tm = 0 := h2 rfl
    cases e with
    | start url =>
      cases url <;>
        simp only [Part000.pollStep, Part000.startLongPolling, Part000.setUrl,
          Part000.longPollCycle] <;> simp_all
    | stop => exact absurd rfl he
    | resolve r =>
      simp only [Part000.pollStep, Part000.resolveResponse]
      split
      · exact ⟨h1, h2⟩
      · omega
    | reject =>
      simp only [Part000.pollStep, Part000.rejectResponse]
      split
      · exact ⟨h1, h2⟩
      · omega
    | fire =>
      simp only [Part000.pollStep, Part000.fireTimer, Part000.longPollCycle]
      split
      · exact ⟨h1, h2⟩
      · omega

/-- Helper: the single-flight invariant along any stop-free event sequence. -/
theorem part000_single_flight_fold (evs : List Part000.PollEv) :
    ∀ s : Part000.PollState, (∀ e ∈ evs, e ≠ Part000.PollEv.stop) →
    s.inFlight + s.timers ≤ 1 →
    (s.isPolling = false → s.inFlight + s.timers = 0) →
    (evs.foldl Part000.pollStep s).inFlight + (evs.foldl Part000.pollStep s).timers ≤ 1 := by
  induction evs with
  | nil => intro s _ h1 _; exact h1
  | cons e rest ih =>
    intro s hno h1 h2
    have he := hno e (List.mem_cons_self e rest)
    have hstep := part000_single_flight_step s e he h1 h2
    exact ih (Part000.pollStep s e) (fun x hx => hno x (List.mem_cons_of_mem e hx))
      hstep.1 hstep.2

/-- C5 (amended): in the guarded `part_000` variant, calling
`startLongPolling` while the loop is `Running` is a no-op as far as the loop
is concerned — it stays running, issues no new fetch and leaves the pending
acquire count unchanged (only `serverUrl` may be updated); consequently any
stop-free execution keeps at most one acquire in flight however many times
`start` is called.  (In the `scriptlong.js` variant the claim fails, see the
counterexample.) -/
theorem c5_reentrant_start_noop :
    (∀ (s : Part000.PollState) (url : Option String), s.isPolling = true →
      (Part000.startLongPolling url s).isPolling = true ∧
      (Part000.startLongPolling url s).inFlight = s.inFlight ∧
      (Part000.startLongPolling url s).fetches = s.fetches) ∧
    (∀ evs : List Part000.PollEv, (∀ e ∈ evs, e ≠ Part000.PollEv.stop) →
      (Part000.pollRun evs).inFlight ≤ 1) := by
  constructor
  · intro s url hs
    cases url <;> simp [Part000.startLongPolling, Part000.setUrl, hs]
  · intro evs hno
    have h := part000_single_flight_fold evs Part000.initState hno (by decide) (by decide)
    unfold Part000.pollRun
    omega

/-- Witness for C5 (amended): a running state with one acquire in flight is
left with one acquire in flight by a re-entrant `start`, and the concrete
double-`start` trace keeps at most one acquire pending. -/
theorem c5_reentrant_start_noop_witness :
    (Part000.startLongPolling none ⟨"u", true, 1, 0, 1, []⟩).inFlight = 1 ∧
    (Part000.pollRun [Part000.PollEv.start none, Part000.PollEv.start none]).inFlight ≤ 1 :=
  ⟨(c5_reentrant_start_noop.1 ⟨"u", true, 1, 0, 1, []⟩ none rfl).2.1,
   c5_reentrant_start_noop.2 [Part000.PollEv.start none, Part000.PollEv.start none]
     (by intro e he; fin_cases he <;> simp)⟩

/-- Helper: the client id `client_${t}_${r}_${f}` determines the timestamp
component when the random part and fingerprint agree. -/
theorem mkClientId_timestamp_inj {t1 t2 r f : String}
    (h : ScriptLong.mkClientId t1 r f = ScriptLong.mkClientId t2 r f) : t1 = t2 := by
  have hd := congrArg String.data h
  simp only [ScriptLong.mkClientId, String.data_append, List.append_assoc] at hd
  exact String.ext (List.append_cancel_right (List.append_cancel_left hd))

namespace ScriptPush

/-- Escaping of one character by `escapeHtml` (`scriptpush.js` lines 412-416):
the function assigns the text to a DOM node (`div.textContent = text`) and
reads back `div.innerHTML`; HTML text serialization replaces the
markup-significant characters by their entities and leaves every other
character unchanged. -/
def escapeHtmlChar (c : Char) : List Char :=
  if c = '&' then ['&', 'a', 'm', 'p', ';']
  else if c = '<' then ['&', 'l', 't', ';']
  else if c = '>' then ['&', 'g', 't', ';']
  else [c]

/-- `escapeHtml` over the character list. -/
def escapeHtmlList : List Char → List Char
  | [] => []
  | c :: l => escapeHtmlChar c ++ escapeHtmlList l

/-- `escapeHtml(text)`: the text with `&`, `<`, `>` replaced by their HTML
entities. -/
def escapeHtml (s : String) : String :=
  ⟨escapeHtmlList s.data⟩

/-- Reading escaped output back as HTML text (entity decoding).  Modelled from
the HTML text semantics — the inverse notion used to state that `escapeHtml`
loses no information; it is not repository code. -/
def unescapeHtml : List Char → List Char
  | [] => []
  | '&' :: 'a' :: 'm' :: 'p' :: ';' :: r => '&' :: unescapeHtml r
  | '&' :: 'l' :: 't' :: ';' :: r => '<' :: unescapeHtml r
  | '&' :: 'g' :: 't' :: ';' :: r => '>' :: unescapeHtml r
  | c :: rest => c :: unescapeHtml rest

/-- JS `String.prototype.includes` on character lists. -/
def includesL : List Char → List Char → Bool
  | [], pat => pat.isEmpty
  | l@(_ :: rest), pat => pat.isPrefixOf l || includesL rest pat

/-- JS `haystack.includes(needle)`. -/
def includes (s pat : String) : Bool :=
  includesL s.data pat.data

/-- JS `String.prototype.toLowerCase` (per-character lowering; the titles
involved are ASCII). -/
def toLowerCase (s : String) : String :=
  ⟨s.data.map Char.toLower⟩

/-- `getAlertIcon(title)` (`scriptpush.js` lines 381-390): picks one of seven
fixed icon strings by substring tests on the lowercased title. -/
def getAlertIcon (title : String) : String :=
  let titleLower := toLowerCase title
  if includes titleLower "emergency" then "🚨"
  else if includes titleLower "warning" then "⚠️"
  else if includes titleLower "info" then "ℹ️"
  else if includes titleLower "success" then "✅"
  else if includes titleLower "fire" then "🔥"
  else if includes titleLower "weather" then "🌦️"
  else "📢"

/-- The alert record built by `handleNotification` and consumed by
`displayAlert` (`scriptpush.js` lines 145-154). -/
structure PushAlert where
  id : Nat
  title : String
  message : String
  sequencePosition : Option Nat
  totalAlerts : Option Nat
  isNew : Bool
deriving DecidableEq, Repr

/-- JS truthiness of a possibly-absent numeric field (absent and 0 are
falsy). -/
def jsTruthyNat : Option Nat → Bool
  | some n => n != 0
  | none => false

/-- The `sequenceInfo` fragment of `displayAlert` (lines 192-195) — note the
positions are interpolated raw, but they are numbers. -/
def sequenceInfo (a : PushAlert) : String :=
  if jsTruthyNat a.sequencePosition && jsTruthyNat a.totalAlerts then
    "<span class=\"sequence-info\">(" ++ toString (a.sequencePosition.getD 0) ++ "/" ++
      toString (a.totalAlerts.getD 0) ++ ")</span>"
  else ""

/-- The badge class fragment `${alert.isNew ? 'new' : ''}`. -/
def alertBadgeClass (a : PushAlert) : String :=
  if a.isNew then "new" else ""

/-- The badge text fragment `${alert.isNew ? 'NEW' : 'Alert #' + alert.id}`. -/
def alertBadgeText (a : PushAlert) : String :=
  if a.isNew then "NEW" else "Alert #" ++ toString a.id

/-- The markup assigned to `alertElement.innerHTML` by `displayAlert`
(`scriptpush.js` lines 197-212), with the template's insignificant indentation
omitted.  `timeStr` is the output of `formatTime(alert.timestamp)`, whose
locale-dependent rendering is taken as an input. -/
def displayAlertHtml (a : PushAlert) (timeStr : String) : String :=
  "<div class=\"alert-title\"><span class=\"alert-icon\">" ++ getAlertIcon a.title ++
  "</span> " ++ escapeHtml a.title ++ " " ++ sequenceInfo a ++
  "</div><div class=\"alert-message\">" ++ escapeHtml a.message ++
  "</div><div class=\"alert-meta\"><span class=\"alert-time\">" ++ timeStr ++
  "</span><span class=\"alert-badge " ++ alertBadgeClass a ++ "\">" ++
  alertBadgeText a ++ "</span></div>"

/-- Occurrences of a character in a string. -/
def countChar (c : Char) (s : String) : Nat :=
  s.data.count c

end ScriptPush

namespace Part001

/-- A parsed WebSocket message of `part_001`, with the fields its `onmessage`
handler reads.  `none` models an absent (`undefined`) JS field. -/
structure WsMsg where
  type : Option String
  alert_id : Option String
  title : Option String
  sequence : Option Nat
deriving DecidableEq, Repr

/-- JS template-string rendering of a possibly-`undefined` string field:
an absent field prints as "undefined". -/
def jsStr : Option String → String
  | some s => s
  | none => "undefined"

/-- JS template-string rendering of a possibly-`undefined` numeric field. -/
def jsStrNat : Option Nat → String
  | some n => toString n
  | none => "undefined"

/-- JS `a || b` on a string field: the fallback is used when the field is
absent (`undefined`) or the empty string (both falsy). -/
def jsOrStr (v : Option String) (fallback : String) : String :=
  match v with
  | some s => if s = "" then fallback else s
  | none => fallback

/-- Dedup key of a typed alert (`part_001` line 41):
`data.alert_id || ${data.title}_${data.sequence}`. -/
def alertKey (m : WsMsg) : String :=
  jsOrStr m.alert_id (jsStr m.title ++ "_" ++ jsStrNat m.sequence)

/-- Dedup key of a legacy-format message (`part_001` line 56):
`legacy_${data.title}_${Date.now()}`; `now` is the decimal rendering of
`Date.now()` at receipt. -/
def legacyKey (m : WsMsg) (now : String) : String :=
  "legacy_" ++ jsStr m.title ++ "_" ++ now

/-- Dedup state of the `part_001` client: the `receivedAlertIds` set (as the
list of keys in insertion order) and the keys passed to `displayAlert`, in
order. -/
structure MsgState where
  seen : List String
  displayed : List String
deriving DecidableEq, Repr

/-- The repeated dedup pattern
`if (!receivedAlertIds.has(alertId)) { receivedAlertIds.add(alertId); displayAlert(data); }`. -/
def dedupDisplay (st : MsgState) (k : String) : MsgState :=
  if k ∈ st.seen then st
  else { seen := k :: st.seen, displayed := st.displayed ++ [k] }

/-- `socket.onmessage` of `part_001` (lines 34-65): typed alerts are deduped on
`alertKey`; `error` and `status` messages display nothing through the alert
path; any other shape is the legacy branch, deduped on `legacyKey`. -/
def onmessage (st : MsgState) (m : WsMsg) (now : String) : MsgState :=
  if m.type = some "alert" then dedupDisplay st (alertKey m)
  else if m.type = some "error" then st
  else if m.type = some "status" then st
  else dedupDisplay st (legacyKey m now)

/-- The `part_001` message handler run over a sequence of (message, receipt
time) pairs from a fresh connection (empty `receivedAlertIds`). -/
def runMsgs (msgs : List (WsMsg × String)) : MsgState :=
  msgs.foldl (fun st p => onmessage st p.1 p.2) ⟨[], []⟩

/-- Connection-level events of `part_001`: the socket opening, or closing with
a status code. -/
inductive WsConnEv where
  | opened
  | closedWith (code : Nat)
deriving DecidableEq, Repr

/-- What the `onclose` handler does besides updating state: schedule a
`setTimeout(connectWebSocket, reconnectInterval)` or surface the terminal
"Failed to reconnect after multiple attempts" error via `showErrorMessage`. -/
inductive WsAction where
  | scheduleReconnect
  | terminalError
  | nothing
deriving DecidableEq, Repr

/-- Module-level connection state of `part_001`: `reconnectAttempts` and
`alertsStarted`. -/
structure ConnState where
  reconnectAttempts : Nat
  alertsStarted : Bool
deriving DecidableEq, Repr

/-- `const maxReconnectAttempts = 5;` (`part_001` line 3). -/
def maxReconnectAttempts : Nat := 5

/-- `socket.onopen` (lines 17-32): resets `reconnectAttempts` to 0 and sends
`start_alerts` once per connection (`alertsStarted = true`). -/
def onopen (_s : ConnState) : ConnState × WsAction :=
  (⟨0, true⟩, WsAction.nothing)

/-- `socket.onclose` (lines 67-81): clears `alertsStarted`; reconnects only if
the close was abnormal (`code !== 1000`) and fewer than
`maxReconnectAttempts` attempts were made, incrementing the counter;
otherwise, if attempts are exhausted, surfaces the terminal error. -/
def onclose (s : ConnState) (code : Nat) : ConnState × WsAction :=
  let s1 : ConnState := { s with alertsStarted := false }
  if code ≠ 1000 ∧ s1.reconnectAttempts < maxReconnectAttempts then
    ({ s1 with reconnectAttempts := s1.reconnectAttempts + 1 }, WsAction.scheduleReconnect)
  else if s1.reconnectAttempts ≥ maxReconnectAttempts then
    (s1, WsAction.terminalError)
  else
    (s1, WsAction.nothing)

/-- One connection-level event. -/
def connStep (s : ConnState) : WsConnEv → ConnState × WsAction
  | WsConnEv.opened => onopen s
  | WsConnEv.closedWith code => onclose s code

/-- The connection state reached from page load (`reconnectAttempts = 0`,
`alertsStarted = false`) over a sequence of open/close events. -/
def connRun (evs : List WsConnEv) : ConnState :=
  evs.foldl (fun s e => (connStep s e).1) ⟨0, false⟩

end Part001

/-- Helper: escaping one character yields no raw markup characters. -/
theorem scriptpush_escchar_no_markup (c : Char) :
    (ScriptPush.escapeHtmlChar c).count '<' = 0 ∧
    (ScriptPush.escapeHtmlChar c).count '>' = 0 := by
  unfold ScriptPush.escapeHtmlChar
  split_ifs with h1 h2 h3
  · exact ⟨by decide, by decide⟩
  · exact ⟨by decide, by decide⟩
  · exact ⟨by decide, by decide⟩
  · constructor
    · have hlt : ('<' : Char) ≠ c := fun h => h2 h.symm
      simp [List.count_cons, hlt]
    · have hgt : ('>' : Char) ≠ c := fun h => h3 h.symm
      simp [List.count_cons, hgt]

/-- Helper: the escaped character list contains no raw markup characters. -/
theorem scriptpush_esclist_no_markup (l : List Char) :
    (ScriptPush.escapeHtmlList l).count '<' = 0 ∧
    (ScriptPush.escapeHtmlList l).count '>' = 0 := by
  induction l with
  | nil => exact ⟨rfl, rfl⟩
  | cons c rest ih =>
    have hc := scriptpush_escchar_no_markup c
    simp [ScriptPush.escapeHtmlList, List.count_append, hc.1, hc.2, ih.1, ih.2]

/-- Helper: reading the escaped text back as HTML recovers the input —
escaping is exactly entity replacement, with no information loss. -/
theorem scriptpush_unescape_escape (l : List Char) :
    ScriptPush.unescapeHtml (ScriptPush.escapeHtmlList l) = l := by
  induction l with
  | nil => rfl
  | cons c rest ih =>
    by_cases h1 : c = '&'
    · subst h1
      show ScriptPush.unescapeHtml
        ('&' :: 'a' :: 'm' :: 'p' :: ';' :: ScriptPush.escapeHtmlList rest) = '&' :: rest
      rw [ScriptPush.unescapeHtml, ih]
    · by_cases h2 : c = '<'
      · subst h2
        show ScriptPush.unescapeHtml
          ('&' :: 'l' :: 't' :: ';' :: ScriptPush.escapeHtmlList rest) = '<' :: rest
        rw [ScriptPush.unescapeHtml, ih]
      · by_cases h3 : c = '>'
        · subst h3
          show ScriptPush.unescapeHtml
            ('&' :: 'g' :: 't' :: ';' :: ScriptPush.escapeHtmlList rest) = '>' :: rest
          rw [ScriptPush.unescapeHtml, ih]
        · have hstep : ScriptPush.escapeHtmlList (c :: rest) =
              c :: ScriptPush.escapeHtmlList rest := by
            simp [ScriptPush.escapeHtmlList, ScriptPush.escapeHtmlChar, h1, h2, h3]
          rw [hstep]
          rw [ScriptPush.unescapeHtml.eq_def]
          split
          · simp_all
          · simp_all
          · simp_all
          · simp_all
          · rename_i heq
            injection heq with h4 h5
            subst h4
            subst h5
            rw [ih]

/-- Helper: character counting distributes over string concatenation. -/
theorem scriptpush_countChar_append (c : Char) (s t : String) :
    ScriptPush.countChar c (s ++ t) =
      ScriptPush.countChar c s + ScriptPush.countChar c t := by
  simp [ScriptPush.countChar, String.data_append]

/-- Helper: `escapeHtml` output contains no raw left angle bracket. -/
theorem scriptpush_escape_no_lt (s : String) :
    ScriptPush.countChar '<' (ScriptPush.escapeHtml s) = 0 :=
  (scriptpush_esclist_no_markup s.data).1

/-- Helper: every icon `getAlertIcon` can return is markup-free, whatever the
title. -/
theorem scriptpush_icon_no_lt (t : String) :
    ScriptPush.countChar '<' (ScriptPush.getAlertIcon t) = 0 := by
  simp only [ScriptPush.getAlertIcon]
  split_ifs <;> decide

/-- C10: `escapeHtml` replaces `&`, `<`, `>` by their HTML entities: its output
contains no raw `<` or `>` at all, and decoding the entities recovers the
input exactly.  And `displayAlert` passes title and message into the markup
only through `escapeHtml` (the title additionally selects one of seven fixed
icons): the number of `<` characters — i.e. of markup tags — in the generated
markup does not depend on the alert's title or message. -/
theorem c10_escape_html :
    (∀ s : String, ScriptPush.countChar '<' (ScriptPush.escapeHtml s) = 0 ∧
      ScriptPush.countChar '>' (ScriptPush.escapeHtml s) = 0) ∧
    (∀ s : String, ScriptPush.unescapeHtml (ScriptPush.escapeHtml s).data = s.data) ∧
    (∀ (a : ScriptPush.PushAlert) (timeStr : String),
      ScriptPush.countChar '<' (ScriptPush.displayAlertHtml a timeStr) =
        ScriptPush.countChar '<' (ScriptPush.displayAlertHtml
          ⟨a.id, "", "", a.sequencePosition, a.totalAlerts, a.isNew⟩ timeStr)) := by
  refine ⟨?_, ?_, ?_⟩
  · intro s
    exact scriptpush_esclist_no_markup s.data
  · intro s
    exact scriptpush_unescape_escape s.data
  · intro a timeStr
    simp only [ScriptPush.displayAlertHtml, scriptpush_countChar_append,
      scriptpush_icon_no_lt, scriptpush_escape_no_lt]
    rfl

/-- Helper: `dedupDisplay` preserves the invariant "a key is displayed exactly
once if it is in `receivedAlertIds`, never otherwise". -/
theorem part001_dedup_inv (st : Part001.MsgState) (k0 : String)
    (h : ∀ k, st.displayed.count k = if k ∈ st.seen then 1 else 0) :
    ∀ k, (Part001.dedupDisplay st k0).displayed.count k =
      if k ∈ (Part001.dedupDisplay st k0).seen then 1 else 0 := by
  intro k
  unfold Part001.dedupDisplay
  split
  · exact h k
  · by_cases hk : k = k0
    · subst hk
      simp_all [List.count_append, List.count_cons]
    · simp_all [List.count_append, List.count_cons, List.mem_cons, hk]

/-- Helper: `onmessage` preserves the exactly-once invariant. -/
theorem part001_onmessage_inv (st : Part001.MsgState) (m : Part001.WsMsg) (now : String)
    (h : ∀ k, st.displayed.count k = if k ∈ st.seen then 1 else 0) :
    ∀ k, (Part001.onmessage st m now).displayed.count k =
      if k ∈ (Part001.onmessage st m now).seen then 1 else 0 := by
  unfold Part001.onmessage
  split_ifs
  · exact part001_dedup_inv st (Part001.alertKey m) h
  · exact h
  · exact h
  · exact part001_dedup_inv st (Part001.legacyKey m now) h

/-- Helper: the exactly-once invariant holds along any message fold. -/
theorem part001_fold_inv (msgs : List (Part001.WsMsg × String)) :
    ∀ st : Part001.MsgState,
    (∀ k, st.displayed.count k = if k ∈ st.seen then 1 else 0) →
    ∀ k, ((msgs.foldl (fun st p => Part001.onmessage st p.1 p.2) st).displayed.count k =
      if k ∈ (msgs.foldl (fun st p => Part001.onmessage st p.1 p.2) st).seen then 1 else 0) := by
  induction msgs with
  | nil => intro st h k; exact h k
  | cons p rest ih =>
    intro st h k
    exact ih (Part001.onmessage st p.1 p.2) (part001_onmessage_inv st p.1 p.2 h) k

/-- Helper: the exactly-once invariant for a full run. -/
theorem part001_run_inv (msgs : List (Part001.WsMsg × String)) :
    ∀ k, (Part001.runMsgs msgs).displayed.count k =
      if k ∈ (Part001.runMsgs msgs).seen then 1 else 0 :=
  part001_fold_inv msgs ⟨[], []⟩ (fun k => by simp)

/-- Helper: `dedupDisplay` records its key. -/
theorem part001_dedup_mem (st : Part001.MsgState) (k0 : String) :
    k0 ∈ (Part001.dedupDisplay st k0).seen := by
  unfold Part001.dedupDisplay
  split
  · assumption
  · exact List.mem_cons_self k0 st.seen

/-- Helper: the `receivedAlertIds` set only grows. -/
theorem part001_seen_mono (st : Part001.MsgState) (m : Part001.WsMsg) (now k : String)
    (h : k ∈ st.seen) : k ∈ (Part001.onmessage st m now).seen := by
  unfold Part001.onmessage Part001.dedupDisplay
  split_ifs <;> first
  | exact h
  | exact List.mem_cons_of_mem _ h

/-- C1 (amended): in the WebSocket client (`part_001`), which keeps a
`receivedAlertIds` set, the display operation is invoked at most once per
dedup key over any message sequence, and exactly once for the key of any
typed alert that has been delivered — replays of the same alert id are
suppressed.  (The long-polling variants have no client-side dedup, see the
counterexample.) -/
theorem c1_dedup_idempotence_ws :
    (∀ (msgs : List (Part001.WsMsg × String)) (k : String),
      (Part001.runMsgs msgs).displayed.count k ≤ 1) ∧
    (∀ (msgs : List (Part001.WsMsg × String)) (m : Part001.WsMsg) (now : String),
      m.type = some "alert" →
      (Part001.runMsgs (msgs ++ [(m, now)])).displayed.count (Part001.alertKey m) = 1) := by
  constructor
  · intro msgs k
    rw [part001_run_inv msgs k]
    split <;> omega
  · intro msgs m now hm
    have hrun : Part001.runMsgs (msgs ++ [(m, now)]) =
        Part001.onmessage (Part001.runMsgs msgs) m now := by
      unfold Part001.runMsgs
      rw [List.foldl_append]
      rfl
    have hmem : Part001.alertKey m ∈ (Part001.runMsgs (msgs ++ [(m, now)])).seen := by
      rw [hrun]
      unfold Part001.onmessage
      rw [if_pos hm]
      exact part001_dedup_mem _ _
    rw [part001_run_inv (msgs ++ [(m, now)]) (Part001.alertKey m), if_pos hmem]

/-- Witness for C1 (amended): the server replays alert id "a1" twice; the
display operation runs exactly once for it. -/
theorem c1_dedup_idempotence_ws_witness :
    (Part001.runMsgs [(⟨some "alert", some "a1", some "X", some 1⟩, "1000"),
                      (⟨some "alert", some "a1", some "X", some 1⟩, "1001")]).displayed.count
      (Part001.alertKey ⟨some "alert", some "a1", some "X", some 1⟩) = 1 :=
  c1_dedup_idempotence_ws.2 [(⟨some "alert", some "a1", some "X", some 1⟩, "1000")]
    ⟨some "alert", some "a1", some "X", some 1⟩ "1001" rfl

/-- Helper: one open/close event keeps `reconnectAttempts` within the bound. -/
theorem part001_attempts_le_step (s : Part001.ConnState) (e : Part001.WsConnEv)
    (h : s.reconnectAttempts ≤ 5) :
    ((Part001.connStep s e).1).reconnectAttempts ≤ 5 := by
  cases e with
  | opened => simp [Part001.connStep, Part001.onopen]
  | closedWith code =>
    simp only [Part001.connStep, Part001.onclose, Part001.maxReconnectAttempts]
    split_ifs <;> simp_all
    omega

/-- C4: in the WebSocket client, `reconnectAttempts` never exceeds
`maxReconnectAttempts = 5` in any execution; when the bound is exhausted
(attempts = 5), any further close yields the terminal error action — no
reconnect is scheduled and the counter stops growing; and a successful
`onopen` resets the counter to zero. -/
theorem c4_bounded_reconnect :
    (∀ evs : List Part001.WsConnEv, (Part001.connRun evs).reconnectAttempts ≤ 5) ∧
    (∀ (b : Bool) (code : Nat),
      Part001.connStep ⟨5, b⟩ (Part001.WsConnEv.closedWith code) =
        (⟨5, false⟩, Part001.WsAction.terminalError)) ∧
    (∀ s : Part001.ConnState,
      (Part001.connStep s Part001.WsConnEv.opened).1.reconnectAttempts = 0) := by
  refine ⟨?_, ?_, fun s => rfl⟩
  · intro evs
    have hfold : ∀ (l : List Part001.WsConnEv) (s : Part001.ConnState),
        s.reconnectAttempts ≤ 5 →
        (l.foldl (fun s e => (Part001.connStep s e).1) s).reconnectAttempts ≤ 5 := by
      intro l
      induction l with
      | nil => intro s h; exact h
      | cons e rest ih => intro s h; exact ih _ (part001_attempts_le_step s e h)
    exact hfold evs ⟨0, false⟩ (by decide)
  · intro b code
    simp [Part001.connStep, Part001.onclose, Part001.maxReconnectAttempts]

/-- C7 counterexample: the claim says that when no stable id is derivable (no
server id, no title, no sequence) every delivery is treated as new.  For a
typed alert with all three fields absent the code still synthesizes the
constant key "undefined_undefined", so the second such delivery is suppressed:
only one display happens, not two. -/
theorem c7_counterexample :
    (Part001.runMsgs [(⟨some "alert", none, none, none⟩, "1000"),
                      (⟨some "alert", none, none, none⟩, "2000")]).displayed =
      ["undefined_undefined"] := by decide

/-- C7 (amended): the dedup key of a typed alert is the server id when present
(and non-empty); otherwise it is synthesized from `(title, sequence)` — even
when title and sequence are themselves absent, so id-less typed duplicates are
suppressed after the first.  Only legacy-format messages (no `type` field) are
treated as new on each delivery: their key embeds the receipt time, so two
deliveries at different times have different keys and are both displayed. -/
theorem c7_key_resolution :
    (∀ (m : Part001.WsMsg) (s : String), m.alert_id = some s → s ≠ "" →
      Part001.alertKey m = s) ∧
    (∀ m : Part001.WsMsg, m.alert_id = none ∨ m.alert_id = some "" →
      Part001.alertKey m = Part001.jsStr m.title ++ "_" ++ Part001.jsStrNat m.sequence) ∧
    (∀ (msgs : List (Part001.WsMsg × String)) (m : Part001.WsMsg) (now1 now2 : String),
      m.type = none → now1 ≠ now2 →
      Part001.legacyKey m now1 ≠ Part001.legacyKey m now2 ∧
      (Part001.runMsgs (msgs ++ [(m, now1), (m, now2)])).displayed.count
        (Part001.legacyKey m now1) = 1 ∧
      (Part001.runMsgs (msgs ++ [(m, now1), (m, now2)])).displayed.count
        (Part001.legacyKey m now2) = 1) := by
  refine ⟨?_, ?_, ?_⟩
  · intro m s h hne
    simp [Part001.alertKey, Part001.jsOrStr, h, hne]
  · intro m h
    rcases h with h | h <;> simp [Part001.alertKey, Part001.jsOrStr, h]
  · intro msgs m now1 now2 hm hne
    have hkey : Part001.legacyKey m now1 ≠ Part001.legacyKey m now2 := by
      intro h
      have hd := congrArg String.data h
      simp only [Part001.legacyKey, String.data_append, List.append_assoc] at hd
      exact hne (String.ext
        (List.append_cancel_left (List.append_cancel_left (List.append_cancel_left hd))))
    have hrun : Part001.runMsgs (msgs ++ [(m, now1), (m, now2)]) =
        Part001.onmessage (Part001.onmessage (Part001.runMsgs msgs) m now1) m now2 := by
      unfold Part001.runMsgs
      rw [List.foldl_append]
      rfl
    have hleg : ∀ (st : Part001.MsgState) (now : String),
        Part001.onmessage st m now = Part001.dedupDisplay st (Part001.legacyKey m now) := by
      intro st now
      simp [Part001.onmessage, hm]
    have hmem1 : Part001.legacyKey m now1 ∈
        (Part001.runMsgs (msgs ++ [(m, now1), (m, now2)])).seen := by
      rw [hrun]
      apply part001_seen_mono
      rw [hleg _ now1]
      exact part001_dedup_mem _ _
    have hmem2 : Part001.legacyKey m now2 ∈
        (Part001.runMsgs (msgs ++ [(m, now1), (m, now2)])).seen := by
      rw [hrun, hleg _ now2]
      exact part001_dedup_mem _ _
    refine ⟨hkey, ?_, ?_⟩
    · rw [part001_run_inv (msgs ++ [(m, now1), (m, now2)]) (Part001.legacyKey m now1),
        if_pos hmem1]
    · rw [part001_run_inv (msgs ++ [(m, now1), (m, now2)]) (Part001.legacyKey m now2),
        if_pos hmem2]

/-- Witness for C7 (amended): a present server id "id9" wins; two legacy
messages with the same title at receipt times "1000" and "1001" get distinct
keys and are displayed once each. -/
theorem c7_key_resolution_witness :
    Part001.alertKey ⟨some "alert", some "id9", none, none⟩ = "id9" ∧
    Part001.legacyKey ⟨none, none, some "T", none⟩ "1000" ≠
      Part001.legacyKey ⟨none, none, some "T", none⟩ "1001" ∧
    (Part001.runMsgs [(⟨none, none, some "T", none⟩, "1000"),
                      (⟨none, none, some "T", none⟩, "1001")]).displayed.count
      (Part001.legacyKey ⟨none, none, some "T", none⟩ "1000") = 1 :=
  ⟨c7_key_resolution.1 ⟨some "alert", some "id9", none, none⟩ "id9" rfl (by decide),
   (c7_key_resolution.2.2 [] ⟨none, none, some "T", none⟩ "1000" "1001" rfl (by decide)).1,
   (c7_key_resolution.2.2 [] ⟨none, none, some "T", none⟩ "1000" "1001" rfl (by decide)).2.1⟩

/-- C2: the claim says three consecutive `TransportError`s from a fresh loop
produce delays 1000, 2000, 4000 (attempt counter incremented across
consecutive failures, reset only by a successful acquire).  The code's own
comment announces "Retry with exponential backoff", but the scheduled retry
callback runs `resetRetryCount()` before re-issuing the request, so the
counter is back at 0 when the next failure computes its delay: the delays are
1000, 1000, 1000.  This theorem evaluates the model at the failing input and
records that the retry itself resets the counter. -/
theorem c2_backoff_counter_reset_bug :
    ScriptLong.consecutiveFailureDelays 3 0 = [1000, 1000, 1000] ∧
    ScriptLong.consecutiveFailureDelays 3 0 ≠ [1000, 2000, 4000] ∧
    (∀ c : Nat, ScriptLong.retryTimerFire c = 0) := by
  refine ⟨by decide, by decide, fun c => rfl⟩

/-- C9: the transport-error retry delay function
`min(capDelay, baseDelay * 2^attemptNumber)` of `scriptlong.js` line 154, with
`baseDelay = 1000` and `capDelay = 5000`, is monotone in the attempt number
and never exceeds the cap. -/
theorem c9_backoff_monotone_bounded :
    (∀ m n : Nat, m ≤ n → ScriptLong.retryDelay m ≤ ScriptLong.retryDelay n) ∧
    (∀ n : Nat, ScriptLong.retryDelay n ≤ 5000) := by
  constructor
  · intro m n h
    exact min_le_min (le_refl 5000)
      (Nat.mul_le_mul_left 1000 (Nat.pow_le_pow_right (by decide) h))
  · intro n
    exact Nat.min_le_left _ _

/-- Witness for C9: instantiates the monotonicity at attempts 1 ≤ 3. -/
theorem c9_backoff_monotone_bounded_witness :
    (1 : Nat) ≤ 3 ∧ ScriptLong.retryDelay 1 ≤ ScriptLong.retryDelay 3 :=
  ⟨by decide, c9_backoff_monotone_bounded.1 1 3 (by decide)⟩

/-- C8: identity stability.  First conjunct: with working storage, a second
call to `initializeClientId` returns the id produced by the first call and
leaves the store unchanged, whatever the generation environment of the second
call.  Second conjunct: from an empty store (a storage wipe), the call returns
the freshly generated `client_${timestamp}_${random}_${fingerprint}` id and
stores it; ids generated at different timestamps (same random part and
fingerprint) are different. -/
theorem c8_identity_stability :
    (∀ (st : Option String) (t1 r1 f1 t2 r2 f2 id1 : String) (st1 : Option String),
      ScriptLong.initializeClientId (ScriptLong.okEnv st t1 r1 f1) =
        Except.ok (id1, st1) →
      ScriptLong.initializeClientId (ScriptLong.okEnv st1 t2 r2 f2) =
        Except.ok (id1, st1)) ∧
    (∀ t1 t2 r f : String, t1 ≠ t2 →
      ScriptLong.initializeClientId (ScriptLong.okEnv none t1 r f) =
        Except.ok (ScriptLong.mkClientId t1 r f, some (ScriptLong.mkClientId t1 r f)) ∧
      ScriptLong.mkClientId t1 r f ≠ ScriptLong.mkClientId t2 r f) := by
  constructor
  · intro st t1 r1 f1 t2 r2 f2 id1 st1 h
    cases st with
    | some s =>
      simp only [ScriptLong.initializeClientId, ScriptLong.okEnv] at h ⊢
      obtain ⟨h1, h2⟩ := Prod.mk.injEq .. ▸ Except.ok.inj h
      simp [← h1, ← h2]
    | none =>
      simp only [ScriptLong.initializeClientId, ScriptLong.okEnv] at h ⊢
      obtain ⟨h1, h2⟩ := Prod.mk.injEq .. ▸ Except.ok.inj h
      simp [← h1, ← h2]
  · intro t1 t2 r f hne
    refine ⟨rfl, fun h => hne (mkClientId_timestamp_inj h)⟩

/-- Witness for C8: concrete storage scope.  The stored id "idA" is returned
unchanged by a second call; after a wipe, timestamps "100" and "101" yield
distinct fresh ids. -/
theorem c8_identity_stability_witness :
    (ScriptLong.initializeClientId (ScriptLong.okEnv (some "idA") "100" "r0" "f0") =
      Except.ok ("idA", some "idA") →
     ScriptLong.initializeClientId (ScriptLong.okEnv (some "idA") "101" "r1" "f1") =
      Except.ok ("idA", some "idA")) ∧
    (ScriptLong.mkClientId "100" "r0" "f0" ≠ ScriptLong.mkClientId "101" "r0" "f0") :=
  ⟨c8_identity_stability.1 (some "idA") "100" "r0" "f0" "101" "r1" "f1" "idA" (some "idA"),
   (c8_identity_stability.2 "100" "101" "r0" "f0" (by decide)).2⟩

/-- C6 counterexample: the claim says that when the persistent store is
unavailable `initializeClientId` still completes and returns a session-only
identity.  At this concrete environment — `localStorage.getItem` throws
"SecurityError" — the function propagates the error instead of returning any
identity: the result is `Except.error`, not `Except.ok`. -/
theorem c6_counterexample :
    ScriptLong.initializeClientId
      ⟨Except.error "SecurityError", Except.ok (), "1700000000000", "abc123def", "fp0001"⟩ =
    Except.error "SecurityError" := rfl

/-- C6 (amended): storage failures propagate out of `initializeClientId` —
a throwing `getItem`, or a throwing `setItem` on the generation path, makes
the whole call fail; there is no session-only fallback identity. -/
theorem c6_storage_failure_propagates :
    (∀ (e : ScriptLong.LsEnv) (err : String), e.getResult = Except.error err →
      ScriptLong.initializeClientId e = Except.error err) ∧
    (∀ (e : ScriptLong.LsEnv) (err : String), e.getResult = Except.ok none →
      e.setResult = Except.error err →
      ScriptLong.initializeClientId e = Except.error err) := by
  constructor
  · intro e err h
    simp [ScriptLong.initializeClientId, h]
  · intro e err hg hs
    simp [ScriptLong.initializeClientId, hg, hs]

/-- Witness for C6 (amended): a concrete environment whose `setItem` throws
"QuotaExceededError" on the generation path. -/
theorem c6_storage_failure_propagates_witness :
    ScriptLong.initializeClientId
      ⟨Except.ok none, Except.error "QuotaExceededError", "5", "r", "f"⟩ =
    Except.error "QuotaExceededError" :=
  c6_storage_failure_propagates.2
    ⟨Except.ok none, Except.error "QuotaExceededError", "5", "r", "f"⟩
    "QuotaExceededError" rfl rfl

/-- C5 counterexample: in `scriptlong.js`, `window.startLongPolling` has no
"already Running" guard — it calls `longPollForAlerts` directly, which issues
a fetch unconditionally.  Starting twice from an idle loop therefore leaves
two acquires in flight, refuting "calling start() again leaves exactly one
active acquire in flight" for this variant. -/
theorem c5_counterexample :
    (ScriptLong.startLongPolling (ScriptLong.startLongPolling ⟨0⟩)).inFlight = 2 := rfl
